import Mathlib

/-!
Shallow embedding of the financial / quantity reconciliation logic of the
secondHandSystem repository (mongoose schemas under src/).  JavaScript
numbers are modelled as exact rationals (ℚ); dates and timestamps as
integers (ℤ, milliseconds).  Optional JS fields are `Option`; the JS
pattern `x || 0` becomes `Option.getD x 0` and the truthiness test
`if (x)` on an optional number becomes `x.getD 0 ≠ 0`.  Subdocument
fields that the modelled functions never read (ids, audit fields,
addresses, ...) are omitted.
-/

namespace SecondHand

/-! ## Order side (OrderSchema.ts) -/

inductive DiscountType where
  | PERCENTAGE
  | FIXED_AMOUNT
  | BUY_X_GET_Y
  | VOLUME_DISCOUNT
deriving DecidableEq, Repr

inductive PaymentStatus where
  | PENDING
  | PROCESSING
  | COMPLETED
  | FAILED
  | PARTIALLY_PAID
  | REFUNDED
  | CANCELLED
deriving DecidableEq, Repr

structure Discount where
  type : DiscountType
  value : ℚ
  amount : ℚ
deriving DecidableEq, Repr

structure OrderItem where
  unitPrice : ℚ
  quantity : ℚ
  subtotal : ℚ
  discount : Option Discount
  tax : Option ℚ
  total : ℚ
deriving DecidableEq, Repr

structure Payment where
  status : PaymentStatus
  amount : ℚ
deriving DecidableEq, Repr

structure Order where
  items : List OrderItem
  discounts : List Discount
  shippingCost : ℚ
  handlingFee : Option ℚ
  payments : List Payment
  subtotal : ℚ
  totalQuantity : ℚ
  totalItems : ℕ
  discountTotal : ℚ
  taxTotal : ℚ
  total : ℚ
  totalPaid : ℚ
  balanceDue : ℚ
  paymentStatus : PaymentStatus
deriving DecidableEq, Repr

/-- The per-item part of `OrderSchema.methods.calculateTotals`
(OrderSchema.ts lines 683-702): `item.subtotal = unitPrice * quantity`;
a PERCENTAGE discount yields `subtotal * value/100`, any other discount
type yields the raw `value`; `item.total = subtotal - discountAmount + tax`. -/
def calcOrderItem (item : OrderItem) : OrderItem :=
  let subtotal := item.unitPrice * item.quantity
  let discount := item.discount.map fun d =>
    { d with amount :=
        if d.type = DiscountType.PERCENTAGE then subtotal * (d.value / 100) else d.value }
  { item with
      subtotal := subtotal
      discount := discount
      total := subtotal - ((discount.map Discount.amount).getD 0) + item.tax.getD 0 }

/-- The order-level discount update inside `calculateTotals`
(OrderSchema.ts lines 712-717): PERCENTAGE discounts are applied to the
item-level subtotal sum `s`, any other type yields the raw value. -/
def applyDocDiscount (s : ℚ) (d : Discount) : Discount :=
  { d with amount :=
      if d.type = DiscountType.PERCENTAGE then s * (d.value / 100) else d.value }

/-- Embeds `OrderSchema.methods.calculateTotals` (OrderSchema.ts lines 676-739).
Item totals, order-level discounts (PERCENTAGE applied to the item
subtotal sum), final total, paid total over COMPLETED payments only,
balance due, and the payment-status update. -/
def Order.calculateTotals (o : Order) : Order :=
  let items := o.items.map calcOrderItem
  let subtotal := (items.map OrderItem.subtotal).sum
  let totalQuantity := (items.map OrderItem.quantity).sum
  let itemDiscountTotal :=
    (items.map fun i => (i.discount.map Discount.amount).getD 0).sum
  let taxTotal := (items.map fun i => i.tax.getD 0).sum
  let discounts := o.discounts.map (applyDocDiscount subtotal)
  let discountTotal := itemDiscountTotal + (discounts.map Discount.amount).sum
  let total := subtotal - discountTotal + taxTotal + o.shippingCost + o.handlingFee.getD 0
  let totalPaid :=
    ((o.payments.filter fun p => p.status = PaymentStatus.COMPLETED).map Payment.amount).sum
  let balanceDue := total - totalPaid
  let paymentStatus :=
    if balanceDue ≤ 0 then PaymentStatus.COMPLETED
    else if totalPaid > 0 then PaymentStatus.PARTIALLY_PAID
    else o.paymentStatus
  { o with
      items := items
      discounts := discounts
      subtotal := subtotal
      totalQuantity := totalQuantity
      totalItems := items.length
      discountTotal := discountTotal
      taxTotal := taxTotal
      total := total
      totalPaid := totalPaid
      balanceDue := balanceDue
      paymentStatus := paymentStatus }

/-! ## Invoice side (FinancialSchema.ts, src/unnamed/part_001) -/

inductive InvoiceStatus where
  | DRAFT
  | SENT
  | VIEWED
  | PARTIALLY_PAID
  | PAID
  | OVERDUE
  | CANCELLED
  | REFUNDED
deriving DecidableEq, Repr

inductive InvDiscountType where
  | PERCENTAGE
  | FIXED
deriving DecidableEq, Repr

structure InvDiscount where
  type : InvDiscountType
  value : ℚ
  amount : ℚ
deriving DecidableEq, Repr

structure InvoiceItem where
  quantity : ℚ
  unitPrice : ℚ
  subtotal : ℚ
  taxRate : Option ℚ
  taxAmount : Option ℚ
  total : ℚ
deriving DecidableEq, Repr

/-- Invoice payment subdocuments carry no status field
(part_001 lines 156-162): only an amount (plus id/date/method metadata). -/
structure InvPayment where
  amount : ℚ
deriving DecidableEq, Repr

structure Invoice where
  items : List InvoiceItem
  discount : Option InvDiscount
  shippingCost : Option ℚ
  otherCharges : Option ℚ
  currency : String
  exchangeRate : Option ℚ
  payments : Option (List InvPayment)
  dueDate : ℤ
  subtotal : ℚ
  totalTax : ℚ
  total : ℚ
  totalInEuro : Option ℚ
  paidAmount : ℚ
  outstandingAmount : ℚ
  status : InvoiceStatus
deriving DecidableEq, Repr

/-- The per-item part of `InvoiceSchema.methods.calculateTotals`
(part_001 lines 817-826): `subtotal = quantity * unitPrice`; when
`taxRate` is truthy, `taxAmount = subtotal * taxRate/100`;
`total = subtotal + (taxAmount || 0)`.  There is no item-level discount. -/
def calcInvoiceItem (item : InvoiceItem) : InvoiceItem :=
  let subtotal := item.quantity * item.unitPrice
  let taxAmount :=
    if item.taxRate.getD 0 ≠ 0 then some (subtotal * (item.taxRate.getD 0 / 100))
    else item.taxAmount
  { item with
      subtotal := subtotal
      taxAmount := taxAmount
      total := subtotal + taxAmount.getD 0 }

/-- The invoice-level discount update inside `calculateTotals`
(part_001 lines 832-840): PERCENTAGE applied to the item subtotal sum
`s`, FIXED yields the raw value. -/
def applyInvDiscount (s : ℚ) (d : InvDiscount) : InvDiscount :=
  { d with amount :=
      if d.type = InvDiscountType.PERCENTAGE then s * (d.value / 100) else d.value }

/-- Embeds `InvoiceSchema.methods.calculateTotals` (part_001 lines 815-856).
Note: `paidAmount` sums every payment's amount (payments have no status). -/
def Invoice.calculateTotals (inv : Invoice) : Invoice :=
  let items := inv.items.map calcInvoiceItem
  let subtotal := (items.map InvoiceItem.subtotal).sum
  let totalTax := (items.map fun i => i.taxAmount.getD 0).sum
  let discount := inv.discount.map (applyInvDiscount subtotal)
  let discountAmount := (discount.map InvDiscount.amount).getD 0
  let total := subtotal + totalTax - discountAmount
    + inv.shippingCost.getD 0 + inv.otherCharges.getD 0
  let paidAmount := ((inv.payments.getD []).map InvPayment.amount).sum
  let outstandingAmount := total - paidAmount
  let totalInEuro :=
    if inv.currency ≠ "EUR" ∧ inv.exchangeRate.getD 0 ≠ 0 then
      some (total / inv.exchangeRate.getD 0)
    else if inv.currency = "EUR" then some total
    else inv.totalInEuro
  { inv with
      items := items
      discount := discount
      subtotal := subtotal
      totalTax := totalTax
      total := total
      paidAmount := paidAmount
      outstandingAmount := outstandingAmount
      totalInEuro := totalInEuro }

/-- The status part of `InvoiceSchema.pre('save')` (part_001 lines 803-809),
run after `calculateTotals`; `now` is the current timestamp.
When no branch fires the stored status is left unchanged. -/
def Invoice.updateStatus (inv : Invoice) (now : ℤ) : Invoice :=
  if inv.outstandingAmount ≤ 0 then { inv with status := InvoiceStatus.PAID }
  else if inv.paidAmount > 0 then { inv with status := InvoiceStatus.PARTIALLY_PAID }
  else if inv.dueDate < now ∧ inv.status ≠ InvoiceStatus.CANCELLED then
    { inv with status := InvoiceStatus.OVERDUE }
  else inv

/-- The totals/status part of `InvoiceSchema.pre('save')` (part_001
lines 784-812): recompute totals, then derive the status. -/
def Invoice.preSave (inv : Invoice) (now : ℤ) : Invoice :=
  (inv.calculateTotals).updateStatus now

/-- Embeds `InvoiceSchema.methods.markAsPaid` (part_001 lines 858-862). -/
def Invoice.markAsPaid (inv : Invoice) : Invoice :=
  { inv with
      paidAmount := inv.total
      outstandingAmount := 0
      status := InvoiceStatus.PAID }

/-! ## Product quantity counters (ProductSchema.ts) -/

/-- The quantity counters of `ProductSchema` (ProductSchema.ts lines
398-412): `quantity`, `reservedQuantity`, `availableQuantity`, each a
Number with schema validator `min: 0`. -/
structure Product where
  quantity : ℤ
  reservedQuantity : ℤ
  availableQuantity : ℤ
deriving DecidableEq, Repr

/-- The `min: 0` schema validators on the three counters. -/
def Product.valid (p : Product) : Prop :=
  0 ≤ p.quantity ∧ 0 ≤ p.reservedQuantity ∧ 0 ≤ p.availableQuantity

instance (p : Product) : Decidable p.valid := by
  unfold Product.valid; infer_instance

/-- The quantity part of `ProductSchema.pre('save')` (ProductSchema.ts
line 587): `this.availableQuantity = this.quantity - this.reservedQuantity`. -/
def Product.preSave (p : Product) : Product :=
  { p with availableQuantity := p.quantity - p.reservedQuantity }

/-- Saving a product document: mongoose runs schema validation before
the user `pre('save')` hook, so the `min: 0` validators see the state
before `availableQuantity` is recomputed. -/
def Product.save (p : Product) : Option Product :=
  if p.valid then some p.preSave else none

/-- Embeds `ProductSchema.methods.calculateAvailableQuantity` (ProductSchema.ts
lines 608-610). -/
def Product.calculateAvailableQuantity (p : Product) : ℤ :=
  p.quantity - p.reservedQuantity

/-! ## Batch costing (InventorySchema.ts) -/

/-- The cost-related fields of `BatchSchema`; costs are plain Numbers in
the batch's single `currency` field, `unit` is one of
KG / PIECES / BALES / CONTAINERS. -/
structure Batch where
  purchasePrice : Option ℚ
  currency : String
  shippingCost : Option ℚ
  customsDuty : Option ℚ
  otherCosts : Option ℚ
  receivedQuantity : Option ℚ
  unit : String
  totalCost : Option ℚ
  costPerKg : Option ℚ
deriving DecidableEq, Repr

/-- The cost part of `BatchSchema.pre('save')` (InventorySchema.ts lines
651-662): when `purchasePrice` is truthy, `totalCost` is the raw sum of
the four cost fields (no currency conversion anywhere), and `costPerKg`
is set only when `receivedQuantity` is truthy and `unit === 'KG'`. -/
def Batch.calculateCosts (b : Batch) : Batch :=
  if b.purchasePrice.getD 0 ≠ 0 then
    let totalCost := b.purchasePrice.getD 0 + b.shippingCost.getD 0
      + b.customsDuty.getD 0 + b.otherCosts.getD 0
    if b.receivedQuantity.getD 0 ≠ 0 ∧ b.unit = "KG" then
      { b with
          totalCost := some totalCost
          costPerKg := some (totalCost / b.receivedQuantity.getD 0) }
    else { b with totalCost := some totalCost }
  else b

/-! ## Exchange rates and expense conversion (FinancialSchema.ts) -/

/-- Embeds `ExchangeRateSchema` (part_001 lines 694-757): a rate record with a
`date`, a `validFrom`/`validTo` window, and an `isActive` flag. -/
structure ExchangeRate where
  fromCurrency : String
  toCurrency : String
  rate : ℚ
  date : ℤ
  validFrom : ℤ
  validTo : Option ℤ
  isActive : Bool
deriving DecidableEq, Repr

/-- The query in `ExpenseSchema.pre('save')` (part_001 lines 886-891):
`findOne({fromCurrency, toCurrency, date ≤ expenseDate, isActive}).sort(date desc)` —
the latest matching `date`; `validFrom`/`validTo` are not consulted. -/
def findLatestRate (rates : List ExchangeRate) (fc tc : String) (d : ℤ) :
    Option ExchangeRate :=
  (rates.filter fun r =>
      r.fromCurrency = fc ∧ r.toCurrency = tc ∧ r.date ≤ d ∧ r.isActive = true).foldl
    (fun acc r =>
      match acc with
      | none => some r
      | some best => if best.date < r.date then some r else some best)
    none

/-- The fields of `ExpenseSchema` read by its conversion hook. -/
structure Expense where
  amount : ℚ
  currency : String
  expenseDate : ℤ
  amountInEuro : Option ℚ
deriving DecidableEq, Repr

/-- The currency-conversion part of `ExpenseSchema.pre('save')` (part_001
lines 882-898): for a non-EUR expense, divide by the found rate when one
exists; when none exists, leave `amountInEuro` untouched (no error). -/
def Expense.convert (rates : List ExchangeRate) (e : Expense) : Expense :=
  if e.currency ≠ "EUR" then
    match findLatestRate rates e.currency "EUR" e.expenseDate with
    | some r => { e with amountInEuro := some (e.amount / r.rate) }
    | none => e
  else { e with amountInEuro := some e.amount }

/-! ## Inventory reservation (spec §4.5) -/

/-- Modelled from the spec: §4.5 `reserve(productId, qty)`.  The
repository only declares the counters (`ProductSchema` lines 398-412);
no reserve operation exists in src.  Per the spec, reserve succeeds only
if `available ≥ qty` at the instant of the atomic check-and-update, and
on success `reserved += qty`, `available -= qty`; otherwise it fails
with InsufficientStock (here `none`). -/
def reserve (p : Product) (qty : ℤ) : Option Product :=
  if qty ≤ p.availableQuantity then
    some { p with
        reservedQuantity := p.reservedQuantity + qty
        availableQuantity := p.availableQuantity - qty }
  else none

/-- Modelled from the spec: a set of concurrent `reserve` calls against
one product.  §4.5 requires each call to be atomic with respect to the
others, so any concurrent execution is equivalent to running the
requests in some serial order; `runReserves` runs one such order and
returns the final counters together with the total quantity that the
successful calls reserved. -/
def runReserves (p : Product) : List ℤ → Product × ℤ
  | [] => (p, 0)
  | q :: rest =>
    match reserve p q with
    | some p2 =>
      let r := runReserves p2 rest
      (r.1, q + r.2)
    | none => runReserves p rest

/-! ## Spec-side reference definitions (for comparison with the code) -/

/-- The paid-amount fold exactly as claim C3 words it: COMPLETED event
amounts add, REFUNDED event amounts subtract, all other statuses
contribute nothing. -/
def specPaidFold (ps : List Payment) : ℚ :=
  ps.foldl
    (fun acc p =>
      match p.status with
      | PaymentStatus.COMPLETED => acc + p.amount
      | PaymentStatus.REFUNDED => acc - p.amount
      | _ => acc)
    0

/-! ## Concrete fixtures used by the theorems below -/

/-- An order with no items, no discounts, no payments and zeroed derived
fields. -/
def baseOrder : Order :=
  { items := []
    discounts := []
    shippingCost := 0
    handlingFee := none
    payments := []
    subtotal := 0
    totalQuantity := 0
    totalItems := 0
    discountTotal := 0
    taxTotal := 0
    total := 0
    totalPaid := 0
    balanceDue := 0
    paymentStatus := PaymentStatus.PENDING }

/-- An EUR invoice with no items, no discount, no payments and zeroed
derived fields. -/
def baseInvoice : Invoice :=
  { items := []
    discount := none
    shippingCost := none
    otherCharges := none
    currency := "EUR"
    exchangeRate := none
    payments := none
    dueDate := 0
    subtotal := 0
    totalTax := 0
    total := 0
    totalInEuro := none
    paidAmount := 0
    outstandingAmount := 0
    status := InvoiceStatus.DRAFT }

/-- A fresh order item carrying only its inputs. -/
def mkOrderItem (price qty : ℚ) (d : Option Discount) (tax : Option ℚ) : OrderItem :=
  { unitPrice := price, quantity := qty, subtotal := 0, discount := d, tax := tax, total := 0 }

/-- A fresh invoice item carrying only its inputs. -/
def mkInvoiceItem (qty price : ℚ) (taxRate : Option ℚ) : InvoiceItem :=
  { quantity := qty, unitPrice := price, subtotal := 0, taxRate := taxRate,
    taxAmount := none, total := 0 }

/-! ## Claim theorems -/

/-- C1 counterexample: the product with `quantity = 5`,
`reservedQuantity = 7`, `availableQuantity = 0` passes the schema's
`min: 0` validators, so its save succeeds, and the saved document has
`reservedQuantity = 7 > 5 = quantity` (and a negative
`availableQuantity`), refuting `0 ≤ reservedQuantity ≤ quantity`. -/
theorem C1_counterexample :
    Product.save { quantity := 5, reservedQuantity := 7, availableQuantity := 0 } =
      some { quantity := 5, reservedQuantity := 7, availableQuantity := -2 } ∧
    ¬ ((7 : ℤ) ≤ 5) := by
  exact ⟨by decide, by decide⟩

/-- C1 (amended): after every successful save,
`availableQuantity = quantity - reservedQuantity` and
`0 ≤ reservedQuantity`; the bound `reservedQuantity ≤ quantity` is not
enforced anywhere, so `availableQuantity` may be negative. -/
theorem C1_available_eq_quantity_sub_reserved (p q : Product)
    (h : Product.save p = some q) :
    q.availableQuantity = q.quantity - q.reservedQuantity ∧
    0 ≤ q.reservedQuantity := by
  unfold Product.save at h
  split at h
  case isTrue hv =>
    have hq : q = p.preSave := (Option.some.injEq _ _).mp h.symm
    subst hq
    exact ⟨rfl, hv.2.1⟩
  case isFalse hv => exact absurd h (by simp)

/-- C1 witness: the theorem applied to the valid product (3, 1, 2). -/
theorem C1_witness :
    (({ quantity := 3, reservedQuantity := 1, availableQuantity := 2 } : Product)).availableQuantity =
      (({ quantity := 3, reservedQuantity := 1, availableQuantity := 2 } : Product)).quantity -
        (({ quantity := 3, reservedQuantity := 1, availableQuantity := 2 } : Product)).reservedQuantity ∧
    0 ≤ (({ quantity := 3, reservedQuantity := 1, availableQuantity := 2 } : Product)).reservedQuantity :=
  C1_available_eq_quantity_sub_reserved
    { quantity := 3, reservedQuantity := 1, availableQuantity := 2 }
    { quantity := 3, reservedQuantity := 1, availableQuantity := 2 }
    (by decide)

/-- C10: `markAsPaid` sets `paidAmount := total`,
`outstandingAmount := 0`, `status := PAID`, appends no payment event and
changes no other field; afterwards the stored `paidAmount` need not
equal the sum of the payments list (shown on an invoice with
`total = 50` and a single recorded payment of 10). -/
theorem C10_markAsPaid_frame :
    (∀ inv : Invoice,
      (inv.markAsPaid).paidAmount = inv.total ∧
      (inv.markAsPaid).outstandingAmount = 0 ∧
      (inv.markAsPaid).status = InvoiceStatus.PAID ∧
      (inv.markAsPaid).payments = inv.payments ∧
      (inv.markAsPaid).items = inv.items ∧
      (inv.markAsPaid).discount = inv.discount ∧
      (inv.markAsPaid).shippingCost = inv.shippingCost ∧
      (inv.markAsPaid).otherCharges = inv.otherCharges ∧
      (inv.markAsPaid).currency = inv.currency ∧
      (inv.markAsPaid).exchangeRate = inv.exchangeRate ∧
      (inv.markAsPaid).dueDate = inv.dueDate ∧
      (inv.markAsPaid).subtotal = inv.subtotal ∧
      (inv.markAsPaid).totalTax = inv.totalTax ∧
      (inv.markAsPaid).total = inv.total ∧
      (inv.markAsPaid).totalInEuro = inv.totalInEuro) ∧
    (({ baseInvoice with
        total := 50
        payments := some [{ amount := 10 }] }.markAsPaid).paidAmount ≠
      ((({ baseInvoice with
            total := 50
            payments := some [{ amount := 10 }] } : Invoice).payments.getD []).map
          InvPayment.amount).sum) := by
  refine ⟨fun inv => ⟨rfl, rfl, rfl, rfl, rfl, rfl, rfl, rfl, rfl, rfl, rfl, rfl, rfl, rfl, rfl⟩, ?_⟩
  norm_num [Invoice.markAsPaid, baseInvoice]

/-- Whatever `findLatestRate` returns came from the filtered list, so it
satisfies the mongo query's conditions (currency pair, `date ≤ d`,
`isActive`); note `validFrom`/`validTo` are absent here. -/
theorem findLatestRate_conditions (rates : List ExchangeRate) (fc tc : String) (d : ℤ)
    (r : ExchangeRate) (h : findLatestRate rates fc tc d = some r) :
    r.fromCurrency = fc ∧ r.toCurrency = tc ∧ r.date ≤ d ∧ r.isActive = true := by
  have key : ∀ (l : List ExchangeRate) (acc : Option ExchangeRate),
      l.foldl
        (fun acc r =>
          match acc with
          | none => some r
          | some best => if best.date < r.date then some r else some best)
        acc = some r →
      acc = some r ∨ r ∈ l := by
    intro l
    induction l with
    | nil => intro acc h2; exact Or.inl h2
    | cons x xs ih =>
      intro acc h2
      rw [List.foldl_cons] at h2
      rcases ih _ h2 with h3 | h3
      · cases acc with
        | none =>
          have hx : x = r := by simpa using h3
          exact Or.inr (List.mem_cons.mpr (Or.inl hx.symm))
        | some best =>
          have h3b : (if best.date < x.date then some x else some best) = some r := h3
          by_cases hb : best.date < x.date
          · rw [if_pos hb] at h3b
            have hx : x = r := by simpa using h3b
            exact Or.inr (List.mem_cons.mpr (Or.inl hx.symm))
          · rw [if_neg hb] at h3b
            exact Or.inl h3b
      · exact Or.inr (List.mem_cons_of_mem x h3)
  rcases key _ none h with h4 | h4
  · exact absurd h4 (by simp)
  · have h5 := List.mem_filter.mp h4
    have h6 := of_decide_eq_true h5.2
    exact h6

/-- C7 counterexample: the only USD→EUR rate has `validTo = 10` while the
expense date (the reference date) is 100, yet the conversion succeeds
using that rate (100 / 2 = 50): validity windows are never consulted and
no NoRateFound failure exists. -/
theorem C7_counterexample :
    (Expense.convert
      [{ fromCurrency := "USD", toCurrency := "EUR", rate := 2, date := 0,
         validFrom := 0, validTo := some 10, isActive := true }]
      { amount := 100, currency := "USD", expenseDate := 100,
        amountInEuro := none }).amountInEuro = some 50 ∧
    ((10 : ℤ) < 100) := by
  constructor
  · simp [Expense.convert, findLatestRate]
    norm_num
  · decide

/-- C7 (amended): for a non-EUR expense the conversion uses the latest
active rate whose `date` is at or before the expense date, ignoring
`validFrom`/`validTo`; when no such rate exists, the expense is returned
unchanged — `amountInEuro` stays unset and no error is raised. -/
theorem C7_conversion_behaviour (rates : List ExchangeRate) (e : Expense)
    (h : e.currency ≠ "EUR") :
    (findLatestRate rates e.currency "EUR" e.expenseDate = none →
      e.convert rates = e) ∧
    (∀ r, findLatestRate rates e.currency "EUR" e.expenseDate = some r →
      r.fromCurrency = e.currency ∧ r.toCurrency = "EUR" ∧
      r.date ≤ e.expenseDate ∧ r.isActive = true ∧
      e.convert rates = { e with amountInEuro := some (e.amount / r.rate) }) := by
  constructor
  · intro hn
    simp [Expense.convert, h, hn]
  · intro r hr
    obtain ⟨h1, h2, h3, h4⟩ := findLatestRate_conditions rates e.currency "EUR" e.expenseDate r hr
    refine ⟨h1, h2, h3, h4, ?_⟩
    simp [Expense.convert, h, hr]

/-- C7 witness: the theorem applied with an empty rate table to a USD
expense — the conversion silently does nothing. -/
theorem C7_witness :
    Expense.convert []
      { amount := 7, currency := "USD", expenseDate := 0, amountInEuro := none } =
      { amount := 7, currency := "USD", expenseDate := 0, amountInEuro := none } :=
  (C7_conversion_behaviour []
    { amount := 7, currency := "USD", expenseDate := 0, amountInEuro := none }
    (by decide)).1 rfl

/-- The scenario-D batch: 1000 EUR purchase price, 100 EUR shipping,
500 KG received. -/
def batchD : Batch :=
  { purchasePrice := some 1000
    currency := "EUR"
    shippingCost := some 100
    customsDuty := none
    otherCosts := none
    receivedQuantity := some 500
    unit := "KG"
    totalCost := none
    costPerKg := none }

/-- C8 counterexample: (i) with `purchasePrice` unset, `totalCost` is not
computed at all even though `shippingCost = 100` (the claim's sum would
be 100); (ii) with `unit = PIECES` and `receivedQuantity = 500 ≠ 0`, the
per-unit cost is left unset even though the claim requires
`costPerUnit = totalCost / receivedQuantity` whenever the quantity is
nonzero. -/
theorem C8_counterexample :
    (Batch.calculateCosts
      { purchasePrice := none, currency := "EUR", shippingCost := some 100,
        customsDuty := none, otherCosts := none, receivedQuantity := some 500,
        unit := "KG", totalCost := none, costPerKg := none }).totalCost = none ∧
    (Batch.calculateCosts
      { purchasePrice := some 1000, currency := "EUR", shippingCost := some 100,
        customsDuty := none, otherCosts := none, receivedQuantity := some 500,
        unit := "PIECES", totalCost := none, costPerKg := none }).costPerKg = none ∧
    (100 : ℚ) ≠ 0 ∧ (500 : ℚ) ≠ 0 := by
  refine ⟨?_, ?_, by norm_num, by norm_num⟩
  · simp [Batch.calculateCosts]
  · simp [Batch.calculateCosts]

/-- C8 (amended): when `purchasePrice` is nonzero, `totalCost` is the raw
sum of the four cost fields (no currency normalization exists anywhere in
the hook), and `costPerKg = totalCost / receivedQuantity` is computed
exactly when `receivedQuantity` is nonzero and the unit is KG, the
per-unit cost being left unset otherwise. -/
theorem C8_batch_costing (b : Batch) (hp : b.purchasePrice.getD 0 ≠ 0) :
    (b.calculateCosts).totalCost =
      some (b.purchasePrice.getD 0 + b.shippingCost.getD 0 +
        b.customsDuty.getD 0 + b.otherCosts.getD 0) ∧
    ((b.receivedQuantity.getD 0 ≠ 0 ∧ b.unit = "KG") →
      (b.calculateCosts).costPerKg =
        some ((b.purchasePrice.getD 0 + b.shippingCost.getD 0 +
          b.customsDuty.getD 0 + b.otherCosts.getD 0) / b.receivedQuantity.getD 0)) ∧
    (¬ (b.receivedQuantity.getD 0 ≠ 0 ∧ b.unit = "KG") →
      (b.calculateCosts).costPerKg = b.costPerKg) := by
  unfold Batch.calculateCosts
  rw [if_pos hp]
  by_cases hk : b.receivedQuantity.getD 0 ≠ 0 ∧ b.unit = "KG"
  · rw [if_pos hk]
    exact ⟨rfl, fun _ => rfl, fun hnk => absurd hk hnk⟩
  · rw [if_neg hk]
    exact ⟨rfl, fun h2 => absurd h2 hk, fun _ => rfl⟩

/-- C8 witness (scenario D): 1000 + 100 over 500 KG gives
`costPerKg = 1100 / 500 = 2.20`. -/
theorem C8_witness :
    (Batch.calculateCosts batchD).totalCost =
      some ((1000 : ℚ) + 100 + 0 + 0) ∧
    (Batch.calculateCosts batchD).costPerKg =
      some (((1000 : ℚ) + 100 + 0 + 0) / 500) :=
  ⟨(C8_batch_costing batchD (by norm_num [batchD])).1,
   (C8_batch_costing batchD (by norm_num [batchD])).2.1
     ⟨by norm_num [batchD], rfl⟩⟩

/-- The order's paid total, read off `calculateTotals`: the sum of the
amounts of the payments whose status is COMPLETED. -/
theorem order_totalPaid_eq (o : Order) :
    (Order.calculateTotals o).totalPaid =
      ((o.payments.filter fun p => p.status = PaymentStatus.COMPLETED).map
        Payment.amount).sum := rfl

/-- The invoice's paid amount, read off `calculateTotals`: the sum of all
payment amounts. -/
theorem invoice_paidAmount_eq (inv : Invoice) :
    (Invoice.calculateTotals inv).paidAmount =
      ((inv.payments.getD []).map InvPayment.amount).sum := rfl

/-- C3 counterexample: an order whose only payment event is REFUNDED 30
gets `totalPaid = 0`, not the `-30` the claimed fold (COMPLETED add,
REFUNDED subtract) produces — refunds are never subtracted. -/
theorem C3_counterexample :
    (Order.calculateTotals
      { baseOrder with
          payments := [{ status := PaymentStatus.REFUNDED, amount := 30 }] }).totalPaid = 0 ∧
    specPaidFold [{ status := PaymentStatus.REFUNDED, amount := 30 }] = -30 ∧
    (0 : ℚ) ≠ -30 := by
  refine ⟨?_, ?_, by norm_num⟩
  · simp [order_totalPaid_eq]
  · norm_num [specPaidFold]

/-- C3 (amended): on orders, appending a payment whose status is not
COMPLETED (REFUNDED included) leaves `totalPaid` unchanged, while a
COMPLETED payment adds its amount; on invoices, appending ANY payment
adds its amount, because invoice payment records carry no status. -/
theorem C3_paid_amounts (o : Order) (p : Payment) (inv : Invoice) (q : InvPayment) :
    (p.status ≠ PaymentStatus.COMPLETED →
      (Order.calculateTotals { o with payments := o.payments ++ [p] }).totalPaid =
        (Order.calculateTotals o).totalPaid) ∧
    (p.status = PaymentStatus.COMPLETED →
      (Order.calculateTotals { o with payments := o.payments ++ [p] }).totalPaid =
        (Order.calculateTotals o).totalPaid + p.amount) ∧
    ((Invoice.calculateTotals
        { inv with payments := some ((inv.payments.getD []) ++ [q]) }).paidAmount =
      (Invoice.calculateTotals inv).paidAmount + q.amount) := by
  refine ⟨?_, ?_, ?_⟩
  · intro h
    simp [order_totalPaid_eq, List.filter_append, h]
  · intro h
    simp [order_totalPaid_eq, List.filter_append, h]
  · simp [invoice_paidAmount_eq]

/-- C3 witness: appending REFUNDED 5 to the empty order leaves
`totalPaid` unchanged. -/
theorem C3_witness :
    (Order.calculateTotals
      { baseOrder with
          payments := baseOrder.payments ++
            [{ status := PaymentStatus.REFUNDED, amount := 5 }] }).totalPaid =
      (Order.calculateTotals baseOrder).totalPaid :=
  (C3_paid_amounts baseOrder { status := PaymentStatus.REFUNDED, amount := 5 }
    baseInvoice { amount := 1 }).1 (by decide)

/-- The order's payment-status update, read off `calculateTotals`. -/
theorem order_paymentStatus_eq (o : Order) :
    (Order.calculateTotals o).paymentStatus =
      if (Order.calculateTotals o).balanceDue ≤ 0 then PaymentStatus.COMPLETED
      else if (Order.calculateTotals o).totalPaid > 0 then PaymentStatus.PARTIALLY_PAID
      else o.paymentStatus := rfl

/-- Recomputing totals does not touch an invoice's status or due date. -/
theorem invoice_ct_status_eq (inv : Invoice) :
    (Invoice.calculateTotals inv).status = inv.status := rfl

theorem invoice_ct_dueDate_eq (inv : Invoice) :
    (Invoice.calculateTotals inv).dueDate = inv.dueDate := rfl

/-- C4 counterexample: an order with one 50-item, no payments, stored
payment status PROCESSING: after recomputation `balanceDue = 50 > 0` and
`totalPaid = 0`, yet the status stays PROCESSING — the code never falls
back to PENDING (and never derives OVERDUE for orders, which read no
clock at all). -/
theorem C4_counterexample :
    (Order.calculateTotals
      { baseOrder with
          items := [mkOrderItem 50 1 none none]
          paymentStatus := PaymentStatus.PROCESSING }).paymentStatus =
      PaymentStatus.PROCESSING ∧
    PaymentStatus.PROCESSING ≠ PaymentStatus.PENDING := by
  refine ⟨?_, by decide⟩
  norm_num [Order.calculateTotals, baseOrder, mkOrderItem, calcOrderItem]

/-- C4 (amended): after recomputation the statuses are derived as the
code does it.  Invoice pre-save: `outstandingAmount ≤ 0 → PAID`; else
`paidAmount > 0 → PARTIALLY_PAID`; else `now > dueDate` and the stored
status is not CANCELLED `→ OVERDUE`; otherwise the stored status is left
unchanged (never reset to PENDING).  Order `calculateTotals`:
`balanceDue ≤ 0 → COMPLETED`; else `totalPaid > 0 → PARTIALLY_PAID`;
otherwise the stored payment status is left unchanged (orders never
derive OVERDUE).  Scenario C holds: payments 30 and 20 against a total
of 50 give `paidAmount = 50`, `outstandingAmount = 0`, status PAID. -/
theorem C4_status_derivation (inv : Invoice) (now : ℤ) (o : Order) :
    ((Invoice.calculateTotals inv).outstandingAmount ≤ 0 →
      (Invoice.preSave inv now).status = InvoiceStatus.PAID) ∧
    (¬ (Invoice.calculateTotals inv).outstandingAmount ≤ 0 →
      0 < (Invoice.calculateTotals inv).paidAmount →
      (Invoice.preSave inv now).status = InvoiceStatus.PARTIALLY_PAID) ∧
    (¬ (Invoice.calculateTotals inv).outstandingAmount ≤ 0 →
      ¬ 0 < (Invoice.calculateTotals inv).paidAmount →
      inv.dueDate < now → inv.status ≠ InvoiceStatus.CANCELLED →
      (Invoice.preSave inv now).status = InvoiceStatus.OVERDUE) ∧
    (¬ (Invoice.calculateTotals inv).outstandingAmount ≤ 0 →
      ¬ 0 < (Invoice.calculateTotals inv).paidAmount →
      ¬ (inv.dueDate < now ∧ inv.status ≠ InvoiceStatus.CANCELLED) →
      (Invoice.preSave inv now).status = inv.status) ∧
    ((Order.calculateTotals o).balanceDue ≤ 0 →
      (Order.calculateTotals o).paymentStatus = PaymentStatus.COMPLETED) ∧
    (¬ (Order.calculateTotals o).balanceDue ≤ 0 →
      0 < (Order.calculateTotals o).totalPaid →
      (Order.calculateTotals o).paymentStatus = PaymentStatus.PARTIALLY_PAID) ∧
    (¬ (Order.calculateTotals o).balanceDue ≤ 0 →
      ¬ 0 < (Order.calculateTotals o).totalPaid →
      (Order.calculateTotals o).paymentStatus = o.paymentStatus) ∧
    ((Invoice.preSave
        { baseInvoice with
            items := [mkInvoiceItem 1 50 none]
            payments := some [{ amount := 30 }, { amount := 20 }]
            dueDate := 100 } 0).paidAmount = 50 ∧
      (Invoice.preSave
        { baseInvoice with
            items := [mkInvoiceItem 1 50 none]
            payments := some [{ amount := 30 }, { amount := 20 }]
            dueDate := 100 } 0).outstandingAmount = 0 ∧
      (Invoice.preSave
        { baseInvoice with
            items := [mkInvoiceItem 1 50 none]
            payments := some [{ amount := 30 }, { amount := 20 }]
            dueDate := 100 } 0).status = InvoiceStatus.PAID) := by
  refine ⟨?_, ?_, ?_, ?_, ?_, ?_, ?_, ?_⟩
  · intro h1
    simp [Invoice.preSave, Invoice.updateStatus, h1]
  · intro h1 h2
    simp [Invoice.preSave, Invoice.updateStatus, h1, h2]
  · intro h1 h2 h3 h4
    simp [Invoice.preSave, Invoice.updateStatus, h1, h2,
      invoice_ct_status_eq, invoice_ct_dueDate_eq, h3, h4]
  · intro h1 h2 h3
    simp [Invoice.preSave, Invoice.updateStatus, h1, h2,
      invoice_ct_status_eq, invoice_ct_dueDate_eq, h3]
  · intro h1
    simp [order_paymentStatus_eq, h1]
  · intro h1 h2
    simp [order_paymentStatus_eq, h1, h2]
  · intro h1 h2
    simp [order_paymentStatus_eq, h1, h2]
  · refine ⟨?_, ?_, ?_⟩ <;>
      norm_num [Invoice.preSave, Invoice.updateStatus, Invoice.calculateTotals,
        baseInvoice, mkInvoiceItem, calcInvoiceItem]

/-- C4 witness: the empty invoice (total 0, paid 0, outstanding 0) is
derived PAID. -/
theorem C4_witness :
    (Invoice.preSave baseInvoice 0).status = InvoiceStatus.PAID :=
  (C4_status_derivation baseInvoice 0 baseOrder).1
    (by norm_num [Invoice.calculateTotals, baseInvoice])

/-- C5 counterexample: (i) a FIXED_AMOUNT discount of 100 on an order
item with subtotal 50 produces `discountAmount = 100` (not
`min 100 50 = 50`) and a NEGATIVE item total of `-50`; (ii) the invoice
item of scenario A `{unitPrice = 25, qty = 2, taxRate = 19}` has no
discount slot at all, and its tax is applied to the raw subtotal:
`total = 59.5`, not the claimed `53.55`. -/
theorem C5_counterexample :
    (((calcOrderItem
        (mkOrderItem 50 1
          (some { type := DiscountType.FIXED_AMOUNT, value := 100, amount := 0 })
          none)).discount.map Discount.amount).getD 0) = 100 ∧
    (calcOrderItem
      (mkOrderItem 50 1
        (some { type := DiscountType.FIXED_AMOUNT, value := 100, amount := 0 })
        none)).total = -50 ∧
    min (100 : ℚ) 50 = 50 ∧ (100 : ℚ) ≠ 50 ∧
    (calcInvoiceItem (mkInvoiceItem 2 25 (some 19))).total = 119 / 2 ∧
    (119 / 2 : ℚ) ≠ 5355 / 100 := by
  norm_num [calcOrderItem, calcInvoiceItem, mkOrderItem, mkInvoiceItem]
  constructor
  · decide
  · rw [if_neg (by decide : ¬ DiscountType.FIXED_AMOUNT = DiscountType.PERCENTAGE)]
    norm_num

/-- C5 (amended): order items use `subtotal = unitPrice * quantity`,
PERCENTAGE discount `subtotal * value / 100`, FIXED discount the raw
`value` (unclamped, so totals can go negative), a stored flat `tax`
amount (never derived from a rate), and
`total = subtotal - discountAmount + tax`; invoice items have no
item-level discount, derive `taxAmount = subtotal * taxRate / 100` from
the raw subtotal, and `total = subtotal + taxAmount`. -/
theorem C5_line_item_calculator (i : OrderItem) (d : Discount)
    (hd : i.discount = some d) (it : InvoiceItem) (r : ℚ)
    (hr : it.taxRate = some r) (hr0 : r ≠ 0) :
    (calcOrderItem i).subtotal = i.unitPrice * i.quantity ∧
    ((calcOrderItem i).discount.map Discount.amount).getD 0 =
      (if d.type = DiscountType.PERCENTAGE then
        i.unitPrice * i.quantity * (d.value / 100)
      else d.value) ∧
    (calcOrderItem i).total =
      i.unitPrice * i.quantity -
        (if d.type = DiscountType.PERCENTAGE then
          i.unitPrice * i.quantity * (d.value / 100)
        else d.value) + i.tax.getD 0 ∧
    (calcInvoiceItem it).subtotal = it.quantity * it.unitPrice ∧
    (calcInvoiceItem it).taxAmount =
      some (it.quantity * it.unitPrice * (r / 100)) ∧
    (calcInvoiceItem it).total =
      it.quantity * it.unitPrice + it.quantity * it.unitPrice * (r / 100) := by
  refine ⟨rfl, ?_, ?_, rfl, ?_, ?_⟩
  · simp [calcOrderItem, hd]
  · simp [calcOrderItem, hd]
  · simp [calcInvoiceItem, hr, hr0]
  · simp [calcInvoiceItem, hr, hr0]

/-- C5 witness: the theorem applied to the scenario-A-like inputs
(order item 25 × 2 with a 10-percent discount; invoice item 2 × 25 with
tax rate 19). -/
theorem C5_witness :
    (calcOrderItem
      (mkOrderItem 25 2
        (some { type := DiscountType.PERCENTAGE, value := 10, amount := 0 })
        none)).subtotal = (25 : ℚ) * 2 :=
  (C5_line_item_calculator
    (mkOrderItem 25 2
      (some { type := DiscountType.PERCENTAGE, value := 10, amount := 0 }) none)
    { type := DiscountType.PERCENTAGE, value := 10, amount := 0 } rfl
    (mkInvoiceItem 2 25 (some 19)) 19 rfl (by norm_num)).1

/-- C6: for both document kinds the aggregated total is
`Σ item subtotal − (Σ item discount + Σ document discount) + Σ tax
+ shipping + handling/other charges`, with document-level PERCENTAGE
discounts applied to the item-level subtotal sum; scenario B (items
subtotal 100, document FIXED 10, shipping 5) totals 95. -/
theorem C6_document_total (o : Order) (inv : Invoice) :
    ((Order.calculateTotals o).total =
      ((Order.calculateTotals o).items.map OrderItem.subtotal).sum
        - (((Order.calculateTotals o).items.map fun i =>
              (i.discount.map Discount.amount).getD 0).sum
            + ((Order.calculateTotals o).discounts.map Discount.amount).sum)
        + ((Order.calculateTotals o).items.map fun i => i.tax.getD 0).sum
        + o.shippingCost + o.handlingFee.getD 0) ∧
    ((Order.calculateTotals o).discounts =
      o.discounts.map
        (applyDocDiscount
          (((Order.calculateTotals o).items.map OrderItem.subtotal).sum))) ∧
    ((Invoice.calculateTotals inv).total =
      (Invoice.calculateTotals inv).subtotal
        - ((Invoice.calculateTotals inv).discount.map InvDiscount.amount).getD 0
        + (Invoice.calculateTotals inv).totalTax
        + inv.shippingCost.getD 0 + inv.otherCharges.getD 0) ∧
    ((Order.calculateTotals
      { baseOrder with
          items := [mkOrderItem 100 1 none none]
          discounts := [{ type := DiscountType.FIXED_AMOUNT, value := 10, amount := 0 }]
          shippingCost := 5 }).total = 95) := by
  refine ⟨?_, rfl, ?_, ?_⟩
  · unfold Order.calculateTotals
    ring
  · unfold Invoice.calculateTotals
    ring
  · norm_num [Order.calculateTotals, calcOrderItem, applyDocDiscount,
      baseOrder, mkOrderItem]

/-- Recomputing a single order item is idempotent: all written fields are
functions of fields the computation never changes. -/
theorem calcOrderItem_idem (i : OrderItem) :
    calcOrderItem (calcOrderItem i) = calcOrderItem i := by
  rcases i with ⟨up, q, st, d, tax, tot⟩
  cases d with
  | none => simp [calcOrderItem]
  | some d0 =>
    rcases d0 with ⟨dt, dv, da⟩
    simp [calcOrderItem]

/-- Recomputing a single invoice item is idempotent. -/
theorem calcInvoiceItem_idem (it : InvoiceItem) :
    calcInvoiceItem (calcInvoiceItem it) = calcInvoiceItem it := by
  rcases it with ⟨q, up, st, tr, ta, tot⟩
  cases tr with
  | none => simp [calcInvoiceItem]
  | some r =>
    by_cases hr : r = 0
    · simp [calcInvoiceItem, hr]
    · simp [calcInvoiceItem, hr]

theorem map_calcOrderItem_idem (l : List OrderItem) :
    (l.map calcOrderItem).map calcOrderItem = l.map calcOrderItem := by
  rw [List.map_map]
  exact List.map_congr_left fun a _ => calcOrderItem_idem a

theorem map_calcInvoiceItem_idem (l : List InvoiceItem) :
    (l.map calcInvoiceItem).map calcInvoiceItem = l.map calcInvoiceItem := by
  rw [List.map_map]
  exact List.map_congr_left fun a _ => calcInvoiceItem_idem a

theorem applyDocDiscount_idem (s : ℚ) (d : Discount) :
    applyDocDiscount s (applyDocDiscount s d) = applyDocDiscount s d := by
  rcases d with ⟨dt, dv, da⟩
  simp [applyDocDiscount]

theorem map_applyDocDiscount_idem (s : ℚ) (l : List Discount) :
    (l.map (applyDocDiscount s)).map (applyDocDiscount s) = l.map (applyDocDiscount s) := by
  rw [List.map_map]
  exact List.map_congr_left fun a _ => applyDocDiscount_idem s a

theorem applyInvDiscount_idem (s : ℚ) (d : InvDiscount) :
    applyInvDiscount s (applyInvDiscount s d) = applyInvDiscount s d := by
  rcases d with ⟨dt, dv, da⟩
  simp [applyInvDiscount]

theorem opt_applyInvDiscount_idem (s : ℚ) (d : Option InvDiscount) :
    (d.map (applyInvDiscount s)).map (applyInvDiscount s) = d.map (applyInvDiscount s) := by
  cases d with
  | none => rfl
  | some d0 => simp [applyInvDiscount_idem]

/-- C2: recomputing totals is idempotent for both document kinds — a
second `calculateTotals` run on an already recomputed order or invoice
reproduces exactly the same document, every derived field included. -/
theorem C2_recompute_idempotent :
    (∀ o : Order,
      Order.calculateTotals (Order.calculateTotals o) = Order.calculateTotals o) ∧
    (∀ inv : Invoice,
      Invoice.calculateTotals (Invoice.calculateTotals inv) =
        Invoice.calculateTotals inv) := by
  constructor
  · intro o
    simp only [Order.calculateTotals, map_calcOrderItem_idem, map_applyDocDiscount_idem]
    split_ifs <;> rfl
  · intro inv
    simp only [Invoice.calculateTotals, map_calcInvoiceItem_idem, opt_applyInvDiscount_idem]
    split_ifs <;> rfl

/-- Running any sequence of positive reserve requests grants at most the
initially available quantity in total, and availability never goes
negative. -/
theorem runReserves_bound (reqs : List ℤ) :
    ∀ p : Product, (∀ q ∈ reqs, 0 < q) → 0 ≤ p.availableQuantity →
      (runReserves p reqs).2 ≤ p.availableQuantity ∧
      0 ≤ (runReserves p reqs).1.availableQuantity := by
  induction reqs with
  | nil =>
    intro p _ h0
    exact ⟨h0, h0⟩
  | cons q rest ih =>
    intro p hpos h0
    have hq : ∀ x ∈ rest, 0 < x := fun x hx => hpos x (List.mem_cons_of_mem _ hx)
    by_cases hcond : q ≤ p.availableQuantity
    · set p2 : Product :=
        { p with
            reservedQuantity := p.reservedQuantity + q
            availableQuantity := p.availableQuantity - q } with hp2
      have hres : reserve p q = some p2 := by
        unfold reserve
        rw [if_pos hcond]
      have hav : p2.availableQuantity = p.availableQuantity - q := by
        rw [hp2]
      have h02 : 0 ≤ p2.availableQuantity := by
        rw [hav]
        omega
      obtain ⟨ih1, ih2⟩ := ih p2 hq h02
      have hrun : runReserves p (q :: rest) =
          ((runReserves p2 rest).1, q + (runReserves p2 rest).2) := by
        simp only [runReserves, hres]
      rw [hrun]
      exact ⟨by omega, ih2⟩
    · have hres : reserve p q = none := by
        unfold reserve
        rw [if_neg hcond]
      have hrun : runReserves p (q :: rest) = runReserves p rest := by
        simp only [runReserves, hres]
      rw [hrun]
      exact ih p hq h0

/-- C9: with the reservation operation modelled from spec §4.5 (the
repository only declares the counters), any serialization of a set of
concurrent reserve calls against availability K grants at most K units
combined; each call succeeds exactly when `qty ≤ available` at its
check-and-update, and on success `reserved` grows by `qty` while
`available` shrinks by `qty` (`quantity` untouched). -/
theorem C9_no_oversell (p : Product) (reqs : List ℤ)
    (hpos : ∀ q ∈ reqs, 0 < q) (h0 : 0 ≤ p.availableQuantity) :
    (runReserves p reqs).2 ≤ p.availableQuantity ∧
    (∀ s : Product, ∀ qty : ℤ, ∀ s2 : Product, reserve s qty = some s2 →
      qty ≤ s.availableQuantity ∧
      s2.reservedQuantity = s.reservedQuantity + qty ∧
      s2.availableQuantity = s.availableQuantity - qty ∧
      s2.quantity = s.quantity) ∧
    (∀ s : Product, ∀ qty : ℤ, reserve s qty = none →
      ¬ qty ≤ s.availableQuantity) := by
  refine ⟨(runReserves_bound reqs p hpos h0).1, ?_, ?_⟩
  · intro s qty s2 h
    unfold reserve at h
    split at h
    case isTrue hc =>
      have heq :
          ({ s with
              reservedQuantity := s.reservedQuantity + qty
              availableQuantity := s.availableQuantity - qty } : Product) = s2 :=
        (Option.some.injEq _ _).mp h
      exact ⟨hc, by rw [← heq], by rw [← heq], by rw [← heq]⟩
    case isFalse hc => exact absurd h (by simp)
  · intro s qty h
    unfold reserve at h
    split at h
    case isTrue hc => exact absurd h (by simp)
    case isFalse hc => exact hc

/-- C9 witness: 100 serialized unit reservations against availability 10
reserve at most 10 units in total. -/
theorem C9_witness :
    (runReserves { quantity := 10, reservedQuantity := 0, availableQuantity := 10 }
      (List.replicate 100 1)).2 ≤ 10 :=
  (C9_no_oversell { quantity := 10, reservedQuantity := 0, availableQuantity := 10 }
    (List.replicate 100 1)
    (fun q hq => by rw [List.eq_of_mem_replicate hq]; norm_num)
    (by decide)).1

end SecondHand
